import Mathlib

/-!
Shallow embedding of the go-wadjit polling engine core: the WebSocket endpoint
(one-hit and persistent JSON-RPC modes, from src/task_ws.go), the HTTP task
(src/task_http.go), the watcher manager (src/wadjit.go) and the watcher close
logic (src/unnamed/part_002). External effects (dialing, socket writes and
reads, wall-clock time, fresh xid generation) are passed in as explicit
oracle arguments; channel emissions are returned as lists of response records.
-/

/-- Mode of a WebSocket endpoint (src/task_ws.go, WSEndpointMode). -/
inductive WSEndpointMode where
  | modeUnknown
  | oneHitText
  | persistentJSONRPC
deriving DecidableEq, Repr

/-- Kind of task produced by WSEndpoint.Task (src/task_ws.go:127-144):
either a wsOneHit or a wsPersistent task value. -/
inductive WSTaskKind where
  | oneHit
  | persistentTask
deriving DecidableEq, Repr

/-- Configuration state of a WSEndpoint relevant to mode selection. -/
structure WSEndpointCfg where
  mode : WSEndpointMode
deriving DecidableEq, Repr

/-- WSEndpoint.Initialize (src/task_ws.go:101-124), restricted to its effect on
the mode and its result: persistent mode dials (the oracle `dialOk` stands for
the dial outcome), one-hit mode does nothing, and an unknown mode is rewritten
to one-hit text mode. -/
def wsEndpointInit (dialOk : Bool) (cfg : WSEndpointCfg) : Except String WSEndpointCfg :=
  match cfg.mode with
  | .persistentJSONRPC =>
      if dialOk then Except.ok cfg else Except.error "failed to connect when initializing"
  | .oneHitText => Except.ok cfg
  | .modeUnknown => Except.ok { cfg with mode := .oneHitText }

/-- WSEndpoint.Task (src/task_ws.go:127-144): one-hit mode and the default
branch both yield a wsOneHit task; persistent mode yields a wsPersistent task. -/
def wsEndpointTask (cfg : WSEndpointCfg) : WSTaskKind :=
  match cfg.mode with
  | .oneHitText => .oneHit
  | .persistentJSONRPC => .persistentTask
  | .modeUnknown => .oneHit

/-- Connection-lifecycle state of a WSEndpoint visible to Close
(src/task_ws.go:69-96): whether the connection handle is set and whether the
endpoint context has been cancelled. -/
structure WSConnState where
  connSet : Bool
  ctxCancelled : Bool
deriving DecidableEq, Repr

/-- WSEndpoint.Close (src/task_ws.go:69-96). The two oracles stand for the
outcome of conn.WriteControl (close frame) and conn.Close. With no connection
it returns nil at once; an error from either socket operation is returned with
the state untouched; only the full success path clears the handle and cancels
the context. -/
def wsEndpointClose (writeControlErr : Option String) (closeErr : Option String)
    (st : WSConnState) : Option String × WSConnState :=
  if st.connSet = false then (none, st)
  else
    match writeControlErr with
    | some e => (some e, st)
    | none =>
      match closeErr with
      | some e => (some e, st)
      | none => (none, { connSet := false, ctxCancelled := true })

/-- JSON-RPC id values: absent (the Go nil interface / JSON null), a string,
or a number. -/
inductive RpcId where
  | nullId
  | strId (s : String)
  | numId (n : Int)
deriving DecidableEq, Repr

/-- Modelled from the go-jsonrpc dependency: Response.IDString renders the id
as a string, with the empty string standing for a missing id. -/
def RpcId.idString : RpcId → String
  | .nullId => ""
  | .strId s => s
  | .numId n => toString n

/-- JSON-RPC request envelope, reduced to the fields the engine touches: the
id (the only field it mutates) and the method (passed through, used only by
the emptiness check). -/
structure JsonRpcRequest where
  id : RpcId
  method : String
deriving DecidableEq, Repr

/-- Modelled from the go-jsonrpc dependency: Request.IsEmpty holds when the
request carries neither an id nor a method. -/
def JsonRpcRequest.isEmptyReq (r : JsonRpcRequest) : Bool :=
  r.id == RpcId.nullId && r.method == ""

/-- JSON-RPC response envelope, reduced to the id and an opaque result. -/
structure JsonRpcResponse where
  id : RpcId
  result : String
deriving DecidableEq, Repr

/-- Modelled from the go-jsonrpc dependency: Response.IsEmpty holds when the
response carries neither an id nor a result. -/
def JsonRpcResponse.isEmptyResp (r : JsonRpcResponse) : Bool :=
  r.id == RpcId.nullId && r.result == ""

/-- Response.IDString of the go-jsonrpc dependency, on the reduced envelope. -/
def JsonRpcResponse.respIdString (r : JsonRpcResponse) : String :=
  r.id.idString

/-- wsInflightMessage (src/task_ws.go:61-66): metadata for a request currently
in flight on the persistent connection. Time is modelled as a Nat tick. -/
structure WsInflightMessage where
  inflightID : String
  originalID : RpcId
  timeSent : Nat
deriving DecidableEq, Repr

/-- The inflightMsgs sync.Map of a WSEndpoint, as an association list keyed by
the correlation id string. -/
abbrev InflightMap := List (String × WsInflightMessage)

/-- sync.Map.Load on the inflight map. -/
def inflightLoad (k : String) (m : InflightMap) : Option WsInflightMessage :=
  match m.find? (fun p => p.1 == k) with
  | some p => some p.2
  | none => none

/-- sync.Map.Store on the inflight map: point overwrite of the key. -/
def inflightStore (k : String) (v : WsInflightMessage) (m : InflightMap) : InflightMap :=
  (k, v) :: m.filter (fun p => p.1 != k)

/-- sync.Map.Delete on the inflight map. -/
def inflightDelete (k : String) (m : InflightMap) : InflightMap :=
  m.filter (fun p => p.1 != k)

/-- Number of entries stored under a given correlation id. -/
def inflightCountKey (k : String) (m : InflightMap) : Nat :=
  (m.filter (fun p => p.1 == k)).length

/-- Payload of a response record: a re-marshalled JSON-RPC response from the
read pump (with the start and firstByte timestamps the pump attaches), a raw
one-hit frame, or an HTTP response wrapper. -/
inductive RespPayload where
  | wsJson (resp : JsonRpcResponse) (start : Nat) (firstByte : Nat)
  | wsFrame (raw : String)
  | httpWrapper
deriving DecidableEq, Repr

/-- WatcherResponse (the response record), reduced to the fields the claims
concern: task id, watcher id, the error slot and the payload slot. -/
structure WatcherResponse where
  taskID : String
  watcherID : String
  err : Option String
  payload : Option RespPayload
deriving DecidableEq, Repr

/-- errorResponse helper: a response record with the error slot set and no
payload. -/
def errorResponse (err : String) (taskID watcherID : String) : WatcherResponse :=
  { taskID := taskID, watcherID := watcherID, err := some err, payload := none }

/-- Identity fields of an endpoint (ID and watcherID) threaded into records. -/
structure WSEndpointIds where
  taskID : String
  watcherID : String
deriving DecidableEq, Repr

/-- Outcome of step 1 of wsPersistent.Execute (src/task_ws.go:507-517):
the configured payload is empty (unmarshal skipped, request stays the zero
value), fails to unmarshal, or parses to a request. -/
inductive WsPayloadParse where
  | emptyPayload
  | malformedPayload (msg : String)
  | parsedPayload (req : JsonRpcRequest)
deriving DecidableEq, Repr

/-- Result of one wsPersistent.Execute call: the records sent on the response
channel, the error returned to the scheduler, the inflight map afterwards,
the message written to the socket (when a write happened), and whether the
connection handle is still set. -/
structure WsExecResult where
  emitted : List WatcherResponse
  retErr : Option String
  inflight : InflightMap
  sentMsg : Option JsonRpcRequest
  connSet : Bool
deriving DecidableEq, Repr

/-- Steps 2-5 and the write of wsPersistent.Execute (src/task_ws.go:519-569):
store the inflight record keyed by the fresh correlation id, then write the
(re-marshalled) message. Marshalling of the structural envelope cannot fail,
so the marshal-error return (src/task_ws.go:534-539) has no counterpart here.
On a write error the connection is closed via closeConn and one error record
is emitted; the oracle `writeErrExpected` selects the wrapped message exactly
as the IsCloseError / "close sent" classification does. -/
def wsPersistentSend (outMsg : JsonRpcRequest) (origID : RpcId) (freshID : String)
    (now : Nat) (writeErr : Option String) (writeErrExpected : Bool)
    (ids : WSEndpointIds) (m : InflightMap) : WsExecResult :=
  let msg : WsInflightMessage :=
    { inflightID := freshID, originalID := origID, timeSent := now }
  let m2 := inflightStore freshID msg m
  match writeErr with
  | some e =>
      let wrapped :=
        if writeErrExpected then "websocket write failed (connection closed): " ++ e
        else "unexpected websocket write error: " ++ e
      { emitted := [errorResponse wrapped ids.taskID ids.watcherID],
        retErr := some wrapped, inflight := m2, sentMsg := none, connSet := false }
  | none =>
      { emitted := [], retErr := none, inflight := m2,
        sentMsg := some outMsg, connSet := true }

/-- wsPersistent.Execute (src/task_ws.go:480-573). Oracles: the protocol tag,
whether nilConn reports a dead connection, the reconnect outcome, whether the
endpoint context is done, the payload parse outcome, the fresh xid, the clock,
and the write outcome. Guard paths (wrong protocol, failed reconnect,
cancelled context) return without emitting; an unmarshal failure emits one
error record and returns the error; otherwise the send path runs: the id is
rewritten to the correlation id only when the parsed request is non-empty. -/
def wsPersistentExecute (protocolIsJSONRPC : Bool) (connNil : Bool) (reconnectOk : Bool)
    (ctxDone : Bool) (parse : WsPayloadParse) (freshID : String) (now : Nat)
    (writeErr : Option String) (writeErrExpected : Bool) (ids : WSEndpointIds)
    (m : InflightMap) : WsExecResult :=
  if protocolIsJSONRPC = false then
    { emitted := [], retErr := some "unsupported protocol", inflight := m,
      sentMsg := none, connSet := !connNil }
  else if connNil && !reconnectOk then
    { emitted := [], retErr := some "failed to dial when reconnecting", inflight := m,
      sentMsg := none, connSet := false }
  else if ctxDone then
    { emitted := [], retErr := none, inflight := m, sentMsg := none, connSet := true }
  else
    match parse with
    | .malformedPayload msg =>
        let wrapped := "failed to unmarshal JSON-RPC message: " ++ msg
        { emitted := [errorResponse wrapped ids.taskID ids.watcherID],
          retErr := some wrapped, inflight := m, sentMsg := none, connSet := true }
    | .emptyPayload =>
        wsPersistentSend { id := RpcId.nullId, method := "" } RpcId.nullId freshID now
          writeErr writeErrExpected ids m
    | .parsedPayload req =>
        if req.isEmptyReq then
          wsPersistentSend req RpcId.nullId freshID now writeErr writeErrExpected ids m
        else
          wsPersistentSend { req with id := RpcId.strId freshID } req.id freshID now
            writeErr writeErrExpected ids m

/-- Outcome of jsonrpc.DecodeResponse on the raw bytes of a frame. -/
inductive DecodeOutcome where
  | decodeErr (msg : String)
  | decoded (resp : JsonRpcResponse)
deriving DecidableEq, Repr

/-- One event observed by the read pump at the top of its loop: the context is
done, ReadMessage fails, or a frame arrives (carrying its raw bytes and the
jsonrpc.DecodeResponse outcome for them). -/
inductive ReadEvent where
  | ctxDone
  | readErr (graceful : Bool)
  | frame (raw : String) (decode : DecodeOutcome)
deriving DecidableEq, Repr

/-- Effect of one read-pump loop iteration: records emitted, the inflight map
afterwards, whether the pump returns (exits), and whether the connection
handle is still set (closeConn runs on read errors). -/
structure PumpStepResult where
  emitted : List WatcherResponse
  inflight : InflightMap
  exitPump : Bool
  connSet : Bool
deriving DecidableEq, Repr

/-- One iteration of WSEndpoint.readPump (src/task_ws.go:262-366) for the
given event. In persistent mode: a decode failure emits one error record and
exits; an empty response emits one error record and continues; a missing
response id emits one error record and exits; a known correlation id is
deleted from the inflight map and a success record with the restored original
id is emitted; an unknown id emits one error record and continues. In one-hit
mode the raw frame is forwarded. -/
def readPumpStep (persistentMode : Bool) (now : Nat) (ev : ReadEvent)
    (ids : WSEndpointIds) (m : InflightMap) : PumpStepResult :=
  match ev with
  | .ctxDone => { emitted := [], inflight := m, exitPump := true, connSet := true }
  | .readErr _ => { emitted := [], inflight := m, exitPump := true, connSet := false }
  | .frame raw dec =>
    if persistentMode then
      match dec with
      | .decodeErr msg =>
          { emitted := [errorResponse ("failed parsing jsonrpc.Response from bytes: " ++ msg)
              ids.taskID ids.watcherID],
            inflight := m, exitPump := true, connSet := true }
      | .decoded resp =>
          if resp.isEmptyResp then
            { emitted := [errorResponse "empty JSON-RPC response" ids.taskID ids.watcherID],
              inflight := m, exitPump := false, connSet := true }
          else
            let responseID := resp.respIdString
            if responseID == "" then
              { emitted := [errorResponse ("found nil response ID, error: " ++ resp.result)
                  ids.taskID ids.watcherID],
                inflight := m, exitPump := true, connSet := true }
            else
              match inflightLoad responseID m with
              | some msg =>
                  { emitted := [{ taskID := ids.taskID, watcherID := ids.watcherID,
                                  err := none,
                                  payload := some (RespPayload.wsJson
                                    { resp with id := msg.originalID } msg.timeSent now) }],
                    inflight := inflightDelete responseID m,
                    exitPump := false, connSet := true }
              | none =>
                  { emitted := [errorResponse ("unknown response ID: " ++ responseID)
                      ids.taskID ids.watcherID],
                    inflight := m, exitPump := false, connSet := true }
    else
      { emitted := [{ taskID := ids.taskID, watcherID := ids.watcherID, err := none,
                      payload := some (RespPayload.wsFrame raw) }],
        inflight := m, exitPump := false, connSet := true }

/-- Whether a read event is a successfully decoded frame whose response id
renders to the given correlation key. -/
def eventTargetsKey (k : String) : ReadEvent → Bool
  | .frame _ (DecodeOutcome.decoded r) => r.respIdString == k
  | _ => false

/-- Effect of WSEndpoint.reconnect (src/task_ws.go:217-249) on the inflight
map: the function closes the socket, joins the old read pump and dials again,
but never reads or writes inflightMsgs, so the map is unchanged. -/
def reconnectInflight (m : InflightMap) : InflightMap := m

/-- Effect of WSEndpoint.closeConn (src/task_ws.go:163-174) and of
WSEndpoint.Close (src/task_ws.go:69-96) on the inflight map: neither touches
inflightMsgs, so the map is unchanged. -/
def closeConnInflight (m : InflightMap) : InflightMap := m

/-- Records emitted and error returned by one task execution (the simple
shape shared by httpRequest.Execute and wsOneHit.Execute). -/
structure TaskEmission where
  emitted : List WatcherResponse
  retErr : Option String
deriving DecidableEq, Repr

/-- httpRequest.Execute (src/task_http.go:152-200). Oracles: the outcome of
http.NewRequest and of client.Do. Each failure emits one error record and
returns the error; success emits one success record and returns nil. -/
def httpExecute (newRequestErr : Option String) (doErr : Option String)
    (ids : WSEndpointIds) : TaskEmission :=
  match newRequestErr with
  | some e => { emitted := [errorResponse e ids.taskID ids.watcherID], retErr := some e }
  | none =>
    match doErr with
    | some e => { emitted := [errorResponse e ids.taskID ids.watcherID], retErr := some e }
    | none =>
      { emitted := [{ taskID := ids.taskID, watcherID := ids.watcherID, err := none,
                      payload := some RespPayload.httpWrapper }], retErr := none }

/-- wsOneHit.Execute (src/task_ws.go:378-460). Oracles: the open-connection
guard, the context, and the dial / write / read / close-control outcomes.
Guard paths return without emitting; dial, write and read failures emit one
error record and return the wrapped error; on success one success record is
emitted, and a close-control failure afterwards still returns an error. -/
def wsOneHitExecute (connAlreadyOpen : Bool) (ctxDone : Bool) (dialErr : Option String)
    (writeErr : Option String) (readErr : Option String) (frame : String)
    (closeControlErr : Option String) (ids : WSEndpointIds) : TaskEmission :=
  if connAlreadyOpen then
    { emitted := [], retErr := some "connection is already open" }
  else if ctxDone then
    { emitted := [], retErr := none }
  else
    match dialErr with
    | some e =>
        let w := "failed to dial: " ++ e
        { emitted := [errorResponse w ids.taskID ids.watcherID], retErr := some w }
    | none =>
      match writeErr with
      | some e =>
          let w := "failed to write message: " ++ e
          { emitted := [errorResponse w ids.taskID ids.watcherID], retErr := some w }
      | none =>
        match readErr with
        | some e =>
            let w := "failed to read message: " ++ e
            { emitted := [errorResponse w ids.taskID ids.watcherID], retErr := some w }
        | none =>
            { emitted := [{ taskID := ids.taskID, watcherID := ids.watcherID, err := none,
                            payload := some (RespPayload.wsFrame frame) }],
              retErr :=
                match closeControlErr with
                | some e => some ("failed to write close message: " ++ e)
                | none => none }

/-- Events driving the manager model: AddWatcher enqueues a validated watcher
id onto newWatcherChan; opening the gate is the send on consumeStarted done
by ResponsesChannel; processQueued is one iteration of the listenForWatchers
loop body, with oracles for the Start and ScheduleJob outcomes. -/
inductive WadjitEvent where
  | addWatcher (id : String)
  | openGate
  | processQueued (startOk : Bool) (schedOk : Bool)
deriving DecidableEq, Repr

/-- State of the manager model: the consumption gate, the queued watcher ids
(newWatcherChan), the ids on which Start has been invoked, the ids scheduled
with the task manager, and the ids stored in the watcher map. -/
structure WadjitState where
  gateOpen : Bool
  queue : List String
  started : List String
  scheduled : List String
  watchers : List String
deriving DecidableEq, Repr

/-- Initial state of a freshly constructed Wadjit (src/wadjit.go:112-129). -/
def initWadjit : WadjitState :=
  { gateOpen := false, queue := [], started := [], scheduled := [], watchers := [] }

/-- Whether an event is the gate-opening send of ResponsesChannel. -/
def isOpenGate : WadjitEvent → Bool
  | .openGate => true
  | _ => false

/-- Ids enqueued by the addWatcher events of a trace, in order. -/
def addedIds : List WadjitEvent → List String
  | [] => []
  | .addWatcher i :: evs => i :: addedIds evs
  | _ :: evs => addedIds evs

/-- One step of the manager model. listenForWatchers (src/wadjit.go:87-109)
blocks on consumeStarted before its loop, so processQueued does nothing while
the gate is closed; with the gate open it starts the next queued watcher,
schedules its job and stores it in the watcher map, skipping the later steps
when an earlier one fails (the continue branches). -/
def wadjitStep (st : WadjitState) (ev : WadjitEvent) : WadjitState :=
  match ev with
  | .addWatcher i => { st with queue := st.queue ++ [i] }
  | .openGate => { st with gateOpen := true }
  | .processQueued startOk schedOk =>
      if st.gateOpen then
        match st.queue with
        | [] => st
        | i :: rest =>
          if startOk = false then
            { st with queue := rest, started := st.started ++ [i] }
          else if schedOk = false then
            { st with queue := rest, started := st.started ++ [i],
                      scheduled := st.scheduled ++ [i] }
          else
            { st with queue := rest, started := st.started ++ [i],
                      scheduled := st.scheduled ++ [i],
                      watchers := st.watchers ++ [i] }
      else st

/-- Run of the manager model over a trace of events. -/
def wadjitRun (evs : List WadjitEvent) (st : WadjitState) : WadjitState :=
  evs.foldl wadjitStep st

/-- The watcher sync.Map of the manager, as an association list from watcher
id to an opaque watcher handle. -/
abbrev WatcherMap := List (String × Nat)

/-- sync.Map.LoadAndDelete on the watcher map. -/
def watcherLoadAndDelete (k : String) (m : WatcherMap) : Option Nat × WatcherMap :=
  match m.find? (fun p => p.1 == k) with
  | some p => (some p.2, m.filter (fun q => q.1 != k))
  | none => (none, m)

/-- sync.Map.Store on the watcher map (the insertion done by
listenForWatchers). -/
def watcherStore (k : String) (v : Nat) (m : WatcherMap) : WatcherMap :=
  (k, v) :: m.filter (fun q => q.1 != k)

/-- Result of Wadjit.RemoveWatcher: the returned error, the watcher map and
scheduler job list afterwards, and the watcher handle that was closed. -/
structure RemoveResult where
  retErr : Option String
  watchers : WatcherMap
  jobs : List String
  closedWatcher : Option Nat
deriving DecidableEq, Repr

/-- Wadjit.RemoveWatcher (src/wadjit.go:37-51). LoadAndDelete the id; when
absent, return the not-found error with the map untouched. When present,
close the watcher (oracle `closeErr`); a close error is returned with the job
still scheduled; on success RemoveJob drops the job. -/
def removeWatcher (closeErr : Nat → Option String) (k : String) (m : WatcherMap)
    (jobs : List String) : RemoveResult :=
  match watcherLoadAndDelete k m with
  | (none, m2) =>
      { retErr := some ("watcher with ID " ++ k ++ " not found"),
        watchers := m2, jobs := jobs, closedWatcher := none }
  | (some w, m2) =>
    match closeErr w with
    | some e => { retErr := some e, watchers := m2, jobs := jobs, closedWatcher := some w }
    | none =>
        { retErr := none, watchers := m2, jobs := jobs.filter (fun j => j != k),
          closedWatcher := some w }

/-- Outcome of a Go computation that may panic. -/
inductive GoOutcome (α : Type) where
  | panicked (msg : String)
  | ok (a : α)
deriving DecidableEq, Repr

/-- State of a Watcher relevant to Close: whether its done channel has
already been closed. -/
structure WatcherCloseState where
  doneChanClosed : Bool
deriving DecidableEq, Repr

/-- Go built-in close on a channel: closing an already-closed channel panics
(Go language specification). -/
def goCloseChan (alreadyClosed : Bool) : GoOutcome Unit :=
  if alreadyClosed then GoOutcome.panicked "close of closed channel"
  else GoOutcome.ok ()

/-- Watcher.Close (src/unnamed/part_002:93-106): close(w.doneChan), then close
every task, aggregating errors with multierror and returning ErrorOrNil. -/
def watcherClose (taskCloseErrs : List (Option String)) (st : WatcherCloseState) :
    GoOutcome (Option String × WatcherCloseState) :=
  match goCloseChan st.doneChanClosed with
  | .panicked m => .panicked m
  | .ok _ =>
      let errs := taskCloseErrs.filterMap id
      .ok (if errs.isEmpty then none else some (String.intercalate "; " errs),
           { doneChanClosed := true })

/-- C8: for every WebSocket endpoint whose mode is unknown at construction,
Initialize sets the mode to one-hit text, and Task on the resulting endpoint
yields a one-hit task rather than a persistent one. -/
theorem C8_unknown_mode_defaults (cfg : WSEndpointCfg) (dialOk : Bool)
    (h : cfg.mode = WSEndpointMode.modeUnknown) :
    wsEndpointInit dialOk cfg = Except.ok { cfg with mode := WSEndpointMode.oneHitText } ∧
    wsEndpointTask { cfg with mode := WSEndpointMode.oneHitText } = WSTaskKind.oneHit := by
  cases cfg
  simp_all [wsEndpointInit, wsEndpointTask]

/-- Witness for C8 at a concrete unknown-mode endpoint. -/
theorem C8_unknown_mode_defaults_witness :
    wsEndpointInit true ⟨WSEndpointMode.modeUnknown⟩ =
      Except.ok ⟨WSEndpointMode.oneHitText⟩ ∧
    wsEndpointTask ⟨WSEndpointMode.oneHitText⟩ = WSTaskKind.oneHit :=
  C8_unknown_mode_defaults ⟨WSEndpointMode.modeUnknown⟩ true rfl

/-- C9: WSEndpoint.Close cancels the context only when a connection exists and
both the close-frame write and the socket close succeed; a nil connection
returns nil without cancelling, and an error from either socket operation is
returned with the connection handle and context left in their prior state. -/
theorem C9_close_paths (w c : Option String) (st : WSConnState) :
    (st.connSet = false → wsEndpointClose w c st = (none, st)) ∧
    (∀ e, st.connSet = true → w = some e → wsEndpointClose w c st = (some e, st)) ∧
    (∀ e, st.connSet = true → w = none → c = some e →
      wsEndpointClose w c st = (some e, st)) ∧
    (st.connSet = true → w = none → c = none →
      wsEndpointClose w c st = (none, ⟨false, true⟩)) := by
  refine ⟨?_, ?_, ?_, ?_⟩ <;> intros <;> simp_all [wsEndpointClose]

/-- Witness for C9 on the success path of a live connection. -/
theorem C9_close_paths_witness :
    wsEndpointClose none none ⟨true, false⟩ = (none, ⟨false, true⟩) :=
  (C9_close_paths none none ⟨true, false⟩).2.2.2 rfl rfl rfl

/-- Loading the key just stored yields the stored inflight record. -/
theorem inflightLoad_store_self (k : String) (v : WsInflightMessage) (m : InflightMap) :
    inflightLoad k (inflightStore k v m) = some v := by
  simp [inflightLoad, inflightStore, List.find?]

/-- Deleting a key removes every entry under it. -/
theorem inflightLoad_delete_self (k : String) (m : InflightMap) :
    inflightLoad k (inflightDelete k m) = none := by
  induction m with
  | nil => rfl
  | cons p t ih =>
      by_cases h : p.1 = k
      · simpa [inflightDelete, inflightLoad, List.filter_cons, h] using ih
      · simpa [inflightDelete, inflightLoad, List.filter_cons, h,
          List.find?_cons, beq_eq_false_iff_ne] using ih

/-- Deleting one key leaves lookups of a different key unchanged. -/
theorem inflightLoad_delete_other (k k2 : String) (m : InflightMap) (h : k ≠ k2) :
    inflightLoad k (inflightDelete k2 m) = inflightLoad k m := by
  induction m with
  | nil => rfl
  | cons p t ih =>
      by_cases hp : p.1 = k2
      · have hpk : ¬ p.1 = k := by
          intro hk; exact h (hk ▸ hp ▸ rfl)
        simp_all [inflightDelete, inflightLoad, List.filter_cons, List.find?_cons,
          beq_eq_false_iff_ne]
      · by_cases hk : p.1 = k
        · simp [inflightDelete, inflightLoad, List.filter_cons, List.find?_cons, hp, hk, h,
            beq_eq_false_iff_ne]
        · simp_all [inflightDelete, inflightLoad, List.filter_cons, List.find?_cons,
            beq_eq_false_iff_ne]

/-- A read-pump iteration whose event does not carry the given correlation key
leaves the entry stored under that key untouched. -/
theorem readPumpStep_preserves_key (k : String) (now : Nat) (ev : ReadEvent)
    (ids : WSEndpointIds) (m : InflightMap) (h : eventTargetsKey k ev = false) :
    inflightLoad k (readPumpStep true now ev ids m).inflight = inflightLoad k m := by
  cases ev with
  | ctxDone => rfl
  | readErr g => rfl
  | frame raw dec =>
      cases dec with
      | decodeErr msg => rfl
      | decoded resp =>
          have hne : resp.respIdString ≠ k := by
            simpa [eventTargetsKey, beq_eq_false_iff_ne] using h
          by_cases he : resp.isEmptyResp
          · simp [readPumpStep, he]
          · by_cases hid : resp.respIdString = ""
            · simp [readPumpStep, he, hid]
            · have hid' : (resp.respIdString == "") = false :=
                beq_eq_false_iff_ne.mpr hid
              cases hload : inflightLoad resp.respIdString m with
              | none => simp [readPumpStep, he, hid', hload]
              | some msg =>
                  simp [readPumpStep, he, hid', hload,
                    inflightLoad_delete_other k resp.respIdString m (Ne.symm hne)]

/-- C1: for a reply on the persistent JSON-RPC connection whose id matches an
in-flight correlation entry, the emitted response record carries the original
request id, not the correlation id: Execute rewrites the outgoing id to the
fresh correlation id before writing, and the read pump restores the stored
original id into the emitted reply payload. -/
theorem C1_persistent_id_roundtrip (req : JsonRpcRequest) (k raw result : String)
    (t now : Nat) (ids : WSEndpointIds) (m : InflightMap)
    (hne : req.isEmptyReq = false) (hk : k ≠ "")
    (hfresh : req.id ≠ RpcId.strId k) :
    (wsPersistentExecute true false true false (.parsedPayload req) k t none false ids
        m).sentMsg = some { req with id := RpcId.strId k } ∧
    (readPumpStep true now
        (.frame raw (.decoded { id := RpcId.strId k, result := result })) ids
        (wsPersistentExecute true false true false (.parsedPayload req) k t none false ids
          m).inflight).emitted =
      [{ taskID := ids.taskID, watcherID := ids.watcherID, err := none,
         payload := some (RespPayload.wsJson { id := req.id, result := result } t now) }] ∧
    RespPayload.wsJson { id := req.id, result := result } t now ≠
      RespPayload.wsJson { id := RpcId.strId k, result := result } t now ∧
    inflightLoad k
      (readPumpStep true now
        (.frame raw (.decoded { id := RpcId.strId k, result := result })) ids
        (wsPersistentExecute true false true false (.parsedPayload req) k t none false ids
          m).inflight).inflight = none := by
  have hk' : (k == "") = false := beq_eq_false_iff_ne.mpr hk
  have hex : wsPersistentExecute true false true false (.parsedPayload req) k t none false
      ids m =
      { emitted := [], retErr := none,
        inflight := inflightStore k ⟨k, req.id, t⟩ m,
        sentMsg := some { req with id := RpcId.strId k }, connSet := true } := by
    simp [wsPersistentExecute, hne, wsPersistentSend]
  have hload := inflightLoad_store_self k ⟨k, req.id, t⟩ m
  refine ⟨by rw [hex], ?_, ?_, ?_⟩
  · rw [hex]
    simp [readPumpStep, JsonRpcResponse.isEmptyResp, JsonRpcResponse.respIdString,
      RpcId.idString, hk', hload]
  · intro hcontra
    exact hfresh (by injection hcontra with h1 _ _; injection h1)
  · rw [hex]
    simp only [readPumpStep, JsonRpcResponse.isEmptyResp, JsonRpcResponse.respIdString,
      RpcId.idString, hk', hload]
    simp [inflightLoad_delete_self]

/-- Witness for C1: a request with id 42 is sent with correlation id c1; the
reply with id c1 is emitted carrying id 42, and the in-flight entry is gone. -/
theorem C1_persistent_id_roundtrip_witness :
    (⟨RpcId.numId 42, "eth_chainId"⟩ : JsonRpcRequest).isEmptyReq = false ∧
    ("c1" : String) ≠ "" ∧
    RpcId.numId 42 ≠ RpcId.strId "c1" ∧
    ((wsPersistentExecute true false true false
        (.parsedPayload ⟨RpcId.numId 42, "eth_chainId"⟩) "c1" 3 none false
        ⟨"task", "watch"⟩ []).sentMsg =
      some ⟨RpcId.strId "c1", "eth_chainId"⟩ ∧
    (readPumpStep true 7 (.frame "" (.decoded ⟨RpcId.strId "c1", "0x1"⟩))
        ⟨"task", "watch"⟩
        (wsPersistentExecute true false true false
          (.parsedPayload ⟨RpcId.numId 42, "eth_chainId"⟩) "c1" 3 none false
          ⟨"task", "watch"⟩ []).inflight).emitted =
      [{ taskID := "task", watcherID := "watch", err := none,
         payload := some (RespPayload.wsJson ⟨RpcId.numId 42, "0x1"⟩ 3 7) }] ∧
    RespPayload.wsJson ⟨RpcId.numId 42, "0x1"⟩ 3 7 ≠
      RespPayload.wsJson ⟨RpcId.strId "c1", "0x1"⟩ 3 7 ∧
    inflightLoad "c1"
      (readPumpStep true 7 (.frame "" (.decoded ⟨RpcId.strId "c1", "0x1"⟩))
        ⟨"task", "watch"⟩
        (wsPersistentExecute true false true false
          (.parsedPayload ⟨RpcId.numId 42, "eth_chainId"⟩) "c1" 3 none false
          ⟨"task", "watch"⟩ []).inflight).inflight = none) :=
  ⟨by decide, by decide, by decide,
    C1_persistent_id_roundtrip ⟨RpcId.numId 42, "eth_chainId"⟩ "c1" "" "0x1" 3 7
      ⟨"task", "watch"⟩ [] (by decide) (by decide) (by decide)⟩

/-- C3: in persistent JSON-RPC mode each protocol error is surfaced as a
response record with the error set: a malformed JSON-RPC frame and a missing
response id make the read pump exit, an empty response and an unknown
correlation id are surfaced while the pump continues reading. -/
theorem C3_protocol_errors (now : Nat) (ids : WSEndpointIds) (m : InflightMap)
    (raw msg : String) (resp : JsonRpcResponse) :
    ((readPumpStep true now (.frame raw (.decodeErr msg)) ids m).emitted =
        [errorResponse ("failed parsing jsonrpc.Response from bytes: " ++ msg)
          ids.taskID ids.watcherID] ∧
      (readPumpStep true now (.frame raw (.decodeErr msg)) ids m).exitPump = true) ∧
    (resp.isEmptyResp = true →
      (readPumpStep true now (.frame raw (.decoded resp)) ids m).emitted =
        [errorResponse "empty JSON-RPC response" ids.taskID ids.watcherID] ∧
      (readPumpStep true now (.frame raw (.decoded resp)) ids m).exitPump = false) ∧
    (resp.isEmptyResp = false → resp.respIdString = "" →
      (readPumpStep true now (.frame raw (.decoded resp)) ids m).emitted =
        [errorResponse ("found nil response ID, error: " ++ resp.result)
          ids.taskID ids.watcherID] ∧
      (readPumpStep true now (.frame raw (.decoded resp)) ids m).exitPump = true) ∧
    (resp.isEmptyResp = false → resp.respIdString ≠ "" →
      inflightLoad resp.respIdString m = none →
      (readPumpStep true now (.frame raw (.decoded resp)) ids m).emitted =
        [errorResponse ("unknown response ID: " ++ resp.respIdString)
          ids.taskID ids.watcherID] ∧
      (readPumpStep true now (.frame raw (.decoded resp)) ids m).exitPump = false) := by
  refine ⟨⟨rfl, rfl⟩, ?_, ?_, ?_⟩
  · intro he
    constructor <;> simp [readPumpStep, he]
  · intro he hid
    constructor <;> simp [readPumpStep, he, hid]
  · intro he hid hload
    have hid' : (resp.respIdString == "") = false := beq_eq_false_iff_ne.mpr hid
    constructor <;> simp [readPumpStep, he, hid', hload]

/-- Witness for C3: the four protocol-error events evaluated on concrete
responses against the empty in-flight map. -/
theorem C3_protocol_errors_witness :
    ((readPumpStep true 1 (.frame "x" (.decodeErr "bad")) ⟨"t", "w"⟩ []).emitted =
        [errorResponse ("failed parsing jsonrpc.Response from bytes: " ++ "bad") "t" "w"] ∧
      (readPumpStep true 1 (.frame "x" (.decodeErr "bad")) ⟨"t", "w"⟩ []).exitPump = true) ∧
    ((readPumpStep true 1 (.frame "x" (.decoded ⟨RpcId.nullId, ""⟩)) ⟨"t", "w"⟩ []).emitted =
        [errorResponse "empty JSON-RPC response" "t" "w"] ∧
      (readPumpStep true 1 (.frame "x" (.decoded ⟨RpcId.nullId, ""⟩)) ⟨"t", "w"⟩
          []).exitPump = false) ∧
    ((readPumpStep true 1 (.frame "x" (.decoded ⟨RpcId.nullId, "r"⟩)) ⟨"t", "w"⟩ []).emitted =
        [errorResponse ("found nil response ID, error: " ++ "r") "t" "w"] ∧
      (readPumpStep true 1 (.frame "x" (.decoded ⟨RpcId.nullId, "r"⟩)) ⟨"t", "w"⟩
          []).exitPump = true) ∧
    ((readPumpStep true 1 (.frame "x" (.decoded ⟨RpcId.strId "z", "r"⟩)) ⟨"t", "w"⟩
          []).emitted =
        [errorResponse ("unknown response ID: " ++ (⟨RpcId.strId "z", "r"⟩ :
          JsonRpcResponse).respIdString) "t" "w"] ∧
      (readPumpStep true 1 (.frame "x" (.decoded ⟨RpcId.strId "z", "r"⟩)) ⟨"t", "w"⟩
          []).exitPump = false) :=
  ⟨(C3_protocol_errors 1 ⟨"t", "w"⟩ [] "x" "bad" ⟨RpcId.nullId, ""⟩).1,
   (C3_protocol_errors 1 ⟨"t", "w"⟩ [] "x" "bad" ⟨RpcId.nullId, ""⟩).2.1 (by decide),
   (C3_protocol_errors 1 ⟨"t", "w"⟩ [] "x" "bad" ⟨RpcId.nullId, "r"⟩).2.2.1 (by decide)
     (by decide),
   (C3_protocol_errors 1 ⟨"t", "w"⟩ [] "x" "bad" ⟨RpcId.strId "z", "r"⟩).2.2.2 (by decide)
     (by decide) rfl⟩

/-- C10: a persistent-mode Execute that reaches the send path stores an
in-flight entry under the fresh correlation id even when the configured
payload is empty or parses to an empty JSON-RPC request; on that path the
outgoing id is not rewritten (it stays the nil id), so the correlation id
never appears on the wire and no read-pump event for a different key ever
removes the entry. -/
theorem C10_empty_request_inflight_leak (parse : WsPayloadParse) (req : JsonRpcRequest)
    (k : String) (t now : Nat) (ids : WSEndpointIds) (m : InflightMap) (ev : ReadEvent)
    (hparse : parse = WsPayloadParse.emptyPayload ∨
      (parse = WsPayloadParse.parsedPayload req ∧ req.isEmptyReq = true))
    (hev : eventTargetsKey k ev = false) :
    inflightLoad k
        (wsPersistentExecute true false true false parse k t none false ids m).inflight =
      some ⟨k, RpcId.nullId, t⟩ ∧
    (wsPersistentExecute true false true false parse k t none false ids
        m).sentMsg.map JsonRpcRequest.id = some RpcId.nullId ∧
    RpcId.nullId ≠ RpcId.strId k ∧
    inflightLoad k
        (readPumpStep true now ev ids
          (wsPersistentExecute true false true false parse k t none false ids
            m).inflight).inflight = some ⟨k, RpcId.nullId, t⟩ := by
  have hpres := readPumpStep_preserves_key k now ev ids
  rcases hparse with h | ⟨h, hemp⟩
  · subst h
    have hst : (wsPersistentExecute true false true false WsPayloadParse.emptyPayload k t
        none false ids m).inflight = inflightStore k ⟨k, RpcId.nullId, t⟩ m := by
      simp [wsPersistentExecute, wsPersistentSend]
    refine ⟨?_, by simp [wsPersistentExecute, wsPersistentSend], by simp, ?_⟩
    · rw [hst]; exact inflightLoad_store_self k _ m
    · rw [hst, hpres _ hev]; exact inflightLoad_store_self k _ m
  · subst h
    have hid : req.id = RpcId.nullId := by
      have := hemp
      simp [JsonRpcRequest.isEmptyReq, Bool.and_eq_true] at this
      exact this.1
    have hst : (wsPersistentExecute true false true false (.parsedPayload req) k t
        none false ids m).inflight = inflightStore k ⟨k, RpcId.nullId, t⟩ m := by
      simp [wsPersistentExecute, hemp, wsPersistentSend]
    refine ⟨?_, by simp [wsPersistentExecute, hemp, wsPersistentSend, hid], by simp, ?_⟩
    · rw [hst]; exact inflightLoad_store_self k _ m
    · rw [hst, hpres _ hev]; exact inflightLoad_store_self k _ m

/-- Witness for C10: an empty configured payload sent with correlation id c1
leaves a permanent entry that a reply for a different id does not remove. -/
theorem C10_empty_request_inflight_leak_witness :
    inflightLoad "c1"
        (wsPersistentExecute true false true false WsPayloadParse.emptyPayload "c1" 0 none
          false ⟨"t", "w"⟩ []).inflight = some ⟨"c1", RpcId.nullId, 0⟩ ∧
    (wsPersistentExecute true false true false WsPayloadParse.emptyPayload "c1" 0 none
        false ⟨"t", "w"⟩ []).sentMsg.map JsonRpcRequest.id = some RpcId.nullId ∧
    RpcId.nullId ≠ RpcId.strId "c1" ∧
    inflightLoad "c1"
        (readPumpStep true 1 (.frame "" (.decoded ⟨RpcId.strId "x", "r"⟩)) ⟨"t", "w"⟩
          (wsPersistentExecute true false true false WsPayloadParse.emptyPayload "c1" 0 none
            false ⟨"t", "w"⟩ []).inflight).inflight = some ⟨"c1", RpcId.nullId, 0⟩ :=
  C10_empty_request_inflight_leak WsPayloadParse.emptyPayload ⟨RpcId.nullId, ""⟩ "c1" 0 1
    ⟨"t", "w"⟩ [] (.frame "" (.decoded ⟨RpcId.strId "x", "r"⟩)) (Or.inl rfl) (by decide)

/-- After a delete no entry is stored under the deleted correlation id. -/
theorem inflightCountKey_delete_self (k : String) (m : InflightMap) :
    inflightCountKey k (inflightDelete k m) = 0 := by
  induction m with
  | nil => rfl
  | cons p t ih =>
      by_cases h : p.1 = k
      · simp [inflightCountKey, inflightDelete, List.filter_cons, h]
      · simp [inflightCountKey, inflightDelete, List.filter_cons, h, beq_eq_false_iff_ne]

/-- C4 counterexample: Execute stores the entry for correlation id c1; tearing
down the connection (reconnect, which never touches inflightMsgs) does not
remove it, refuting removal-on-teardown. -/
theorem C4_counterexample :
    inflightLoad "c1"
        (reconnectInflight
          (wsPersistentExecute true false true false
            (.parsedPayload ⟨RpcId.numId 7, "m"⟩) "c1" 0 none false ⟨"t", "w"⟩
            []).inflight) = some ⟨"c1", RpcId.numId 7, 0⟩ ∧
    inflightLoad "c1"
        (closeConnInflight
          (wsPersistentExecute true false true false
            (.parsedPayload ⟨RpcId.numId 7, "m"⟩) "c1" 0 none false ⟨"t", "w"⟩
            []).inflight) = some ⟨"c1", RpcId.numId 7, 0⟩ ∧
    ¬ (inflightLoad "c1"
        (reconnectInflight
          (wsPersistentExecute true false true false
            (.parsedPayload ⟨RpcId.numId 7, "m"⟩) "c1" 0 none false ⟨"t", "w"⟩
            []).inflight) = none) := by
  refine ⟨rfl, rfl, ?_⟩
  decide

/-- C4 amended: at any time at most one in-flight entry exists per correlation
id (storing under a key leaves exactly one entry for it), and the entry is
removed when the matching reply arrives in the read pump; connection teardown
(endpoint close or reconnect) leaves the map unchanged, so an unanswered entry
outlives the connection it was sent on. -/
theorem C4_amended_inflight_lifecycle (k : String) (v : WsInflightMessage)
    (m : InflightMap) (now : Nat) (ids : WSEndpointIds) (raw : String)
    (resp : JsonRpcResponse) :
    inflightCountKey k (inflightStore k v m) = 1 ∧
    reconnectInflight m = m ∧
    closeConnInflight m = m ∧
    (resp.isEmptyResp = false → resp.respIdString = k → k ≠ "" →
      inflightLoad k m = some v →
      inflightLoad k
        (readPumpStep true now (.frame raw (.decoded resp)) ids m).inflight = none) := by
  refine ⟨?_, rfl, rfl, ?_⟩
  · have hd := inflightCountKey_delete_self k m
    simp only [inflightCountKey, inflightDelete] at hd
    simp [inflightCountKey, inflightStore, List.filter_cons, hd]
  · intro he hid hk hload
    have hk' : (k == "") = false := beq_eq_false_iff_ne.mpr hk
    simp only [readPumpStep, he, hid, hk', Bool.false_eq_true, if_false, hload]
    simp [inflightLoad_delete_self, hid]

/-- Witness for C4 amended: a stored entry for c1 is unique, survives
teardown, and is removed by the pump on the matching reply. -/
theorem C4_amended_inflight_lifecycle_witness :
    inflightCountKey "c1" (inflightStore "c1" ⟨"c1", RpcId.nullId, 0⟩ []) = 1 ∧
    reconnectInflight [("c1", ⟨"c1", RpcId.nullId, 0⟩)] =
      [("c1", ⟨"c1", RpcId.nullId, 0⟩)] ∧
    closeConnInflight [("c1", ⟨"c1", RpcId.nullId, 0⟩)] =
      [("c1", ⟨"c1", RpcId.nullId, 0⟩)] ∧
    inflightLoad "c1"
      (readPumpStep true 2 (.frame "" (.decoded ⟨RpcId.strId "c1", "r"⟩)) ⟨"t", "w"⟩
        [("c1", ⟨"c1", RpcId.nullId, 0⟩)]).inflight = none :=
  ⟨(C4_amended_inflight_lifecycle "c1" ⟨"c1", RpcId.nullId, 0⟩ [] 2 ⟨"t", "w"⟩ ""
      ⟨RpcId.strId "c1", "r"⟩).1,
   (C4_amended_inflight_lifecycle "c1" ⟨"c1", RpcId.nullId, 0⟩
      [("c1", ⟨"c1", RpcId.nullId, 0⟩)] 2 ⟨"t", "w"⟩ "" ⟨RpcId.strId "c1", "r"⟩).2.1,
   (C4_amended_inflight_lifecycle "c1" ⟨"c1", RpcId.nullId, 0⟩
      [("c1", ⟨"c1", RpcId.nullId, 0⟩)] 2 ⟨"t", "w"⟩ "" ⟨RpcId.strId "c1", "r"⟩).2.2.1,
   (C4_amended_inflight_lifecycle "c1" ⟨"c1", RpcId.nullId, 0⟩
      [("c1", ⟨"c1", RpcId.nullId, 0⟩)] 2 ⟨"t", "w"⟩ "" ⟨RpcId.strId "c1", "r"⟩).2.2.2
      (by decide) (by decide) (by decide) (by decide)⟩

/-- C2 counterexample: a persistent-mode Execute hitting the cancelled-context
guard emits zero response records and returns nil, so "exactly one record per
execution" fails at this input. -/
theorem C2_counterexample :
    (wsPersistentExecute true false true true WsPayloadParse.emptyPayload "c1" 0 none
        false ⟨"t", "w"⟩ []).emitted = [] ∧
    (wsPersistentExecute true false true true WsPayloadParse.emptyPayload "c1" 0 none
        false ⟨"t", "w"⟩ []).retErr = none ∧
    ¬ ((wsPersistentExecute true false true true WsPayloadParse.emptyPayload "c1" 0 none
        false ⟨"t", "w"⟩ []).emitted.length = 1) := by
  refine ⟨rfl, rfl, ?_⟩
  decide

/-- C2 amended: every HTTP execution emits exactly one record (an error record
returning the error on construction or transport failure, a success record
returning nil otherwise); one-hit and persistent WS executions emit exactly
one error record and return the error on each failure past their guards, but
emit zero records on the guard paths (open-connection guard, cancelled
context, failed reconnect, unsupported protocol); a successful one-hit emits
exactly one success record, returning an error only when the final
close-frame write fails, and a successful persistent send emits zero records
from Execute (its reply is emitted later by the read pump). -/
theorem C2_amended_single_emission (e frame k : String) (ids : WSEndpointIds)
    (ctxD connNil recOk ctxD2 wExp : Bool)
    (dialE wE rE cE wErr : Option String) (de : Option String)
    (parse : WsPayloadParse) (t : Nat) (m : InflightMap) :
    (httpExecute (some e) de ids =
      ⟨[errorResponse e ids.taskID ids.watcherID], some e⟩) ∧
    (httpExecute none (some e) ids =
      ⟨[errorResponse e ids.taskID ids.watcherID], some e⟩) ∧
    (httpExecute none none ids =
      ⟨[⟨ids.taskID, ids.watcherID, none, some RespPayload.httpWrapper⟩], none⟩) ∧
    (wsOneHitExecute true ctxD dialE wE rE frame cE ids =
      ⟨[], some "connection is already open"⟩) ∧
    (wsOneHitExecute false true dialE wE rE frame cE ids = ⟨[], none⟩) ∧
    (wsOneHitExecute false false (some e) wE rE frame cE ids =
      ⟨[errorResponse ("failed to dial: " ++ e) ids.taskID ids.watcherID],
        some ("failed to dial: " ++ e)⟩) ∧
    (wsOneHitExecute false false none (some e) rE frame cE ids =
      ⟨[errorResponse ("failed to write message: " ++ e) ids.taskID ids.watcherID],
        some ("failed to write message: " ++ e)⟩) ∧
    (wsOneHitExecute false false none none (some e) frame cE ids =
      ⟨[errorResponse ("failed to read message: " ++ e) ids.taskID ids.watcherID],
        some ("failed to read message: " ++ e)⟩) ∧
    (wsOneHitExecute false false none none none frame none ids =
      ⟨[⟨ids.taskID, ids.watcherID, none, some (RespPayload.wsFrame frame)⟩], none⟩) ∧
    (wsOneHitExecute false false none none none frame (some e) ids =
      ⟨[⟨ids.taskID, ids.watcherID, none, some (RespPayload.wsFrame frame)⟩],
        some ("failed to write close message: " ++ e)⟩) ∧
    (wsPersistentExecute false connNil recOk ctxD2 parse k t wErr wExp ids m =
      ⟨[], some "unsupported protocol", m, none, !connNil⟩) ∧
    (wsPersistentExecute true true false ctxD2 parse k t wErr wExp ids m =
      ⟨[], some "failed to dial when reconnecting", m, none, false⟩) ∧
    (wsPersistentExecute true false recOk true parse k t wErr wExp ids m =
      ⟨[], none, m, none, true⟩) ∧
    (wsPersistentExecute true false recOk false (.malformedPayload e) k t wErr wExp ids m =
      ⟨[errorResponse ("failed to unmarshal JSON-RPC message: " ++ e)
          ids.taskID ids.watcherID],
        some ("failed to unmarshal JSON-RPC message: " ++ e), m, none, true⟩) ∧
    (wsPersistentExecute true false recOk false WsPayloadParse.emptyPayload k t (some e)
        false ids m =
      ⟨[errorResponse ("unexpected websocket write error: " ++ e)
          ids.taskID ids.watcherID],
        some ("unexpected websocket write error: " ++ e),
        inflightStore k ⟨k, RpcId.nullId, t⟩ m, none, false⟩) ∧
    (wsPersistentExecute true false recOk false WsPayloadParse.emptyPayload k t none wExp
        ids m =
      ⟨[], none, inflightStore k ⟨k, RpcId.nullId, t⟩ m,
        some ⟨RpcId.nullId, ""⟩, true⟩) := by
  refine ⟨rfl, rfl, rfl, rfl, ?_, rfl, rfl, rfl, rfl, rfl, ?_, ?_, ?_, ?_, ?_, ?_⟩
  · simp [wsOneHitExecute]
  · simp [wsPersistentExecute]
  · simp [wsPersistentExecute]
  · simp [wsPersistentExecute]
  · simp [wsPersistentExecute]
  · simp [wsPersistentExecute, wsPersistentSend]
  · simp [wsPersistentExecute, wsPersistentSend]

/-- While the consumption gate is closed and no gate-opening event occurs, a
run of the manager model only accumulates queued ids: nothing is started,
scheduled or stored. -/
theorem wadjitRun_gate_closed (evs : List WadjitEvent) (st : WadjitState)
    (h1 : st.gateOpen = false) (h2 : evs.any isOpenGate = false) :
    (wadjitRun evs st).gateOpen = false ∧
    (wadjitRun evs st).started = st.started ∧
    (wadjitRun evs st).scheduled = st.scheduled ∧
    (wadjitRun evs st).watchers = st.watchers ∧
    (wadjitRun evs st).queue = st.queue ++ addedIds evs := by
  induction evs generalizing st with
  | nil => simp [wadjitRun, addedIds, h1]
  | cons ev evs ih =>
      have h2' : isOpenGate ev = false ∧ evs.any isOpenGate = false := by
        simpa [List.any_cons] using h2
      cases ev with
      | addWatcher i =>
          have step : wadjitStep st (.addWatcher i) = { st with queue := st.queue ++ [i] } :=
            rfl
          have := ih { st with queue := st.queue ++ [i] } h1 h2'.2
          simpa [wadjitRun, List.foldl_cons, step, addedIds, List.append_assoc] using this
      | openGate => simp [isOpenGate] at h2'
      | processQueued a b =>
          have step : wadjitStep st (.processQueued a b) = st := by
            simp [wadjitStep, h1]
          have := ih st h1 h2'.2
          simpa [wadjitRun, List.foldl_cons, step, addedIds] using this

/-- C5: watchers registered before the consumption gate opens are queued but
not started, scheduled or inserted into the watcher map; once the gate is
open, processing a queued watcher starts it, schedules its job and inserts it
into the map. -/
theorem C5_gate_blocks_activation (evs : List WadjitEvent) (i : String)
    (rest started sched ws : List String)
    (hng : evs.any isOpenGate = false) :
    ((wadjitRun evs initWadjit).started = [] ∧
     (wadjitRun evs initWadjit).scheduled = [] ∧
     (wadjitRun evs initWadjit).watchers = [] ∧
     (wadjitRun evs initWadjit).queue = addedIds evs) ∧
    wadjitStep ⟨true, i :: rest, started, sched, ws⟩ (.processQueued true true) =
      ⟨true, rest, started ++ [i], sched ++ [i], ws ++ [i]⟩ := by
  have h := wadjitRun_gate_closed evs initWadjit rfl hng
  exact ⟨⟨h.2.1, h.2.2.1, h.2.2.2.1, by simpa [initWadjit] using h.2.2.2.2⟩, rfl⟩

/-- Witness for C5: two watchers enqueued without the gate opening stay
queued and unstarted; with the gate open the first queued watcher activates. -/
theorem C5_gate_blocks_activation_witness :
    ((wadjitRun [.addWatcher "a", .processQueued true true, .addWatcher "b"]
        initWadjit).started = [] ∧
     (wadjitRun [.addWatcher "a", .processQueued true true, .addWatcher "b"]
        initWadjit).scheduled = [] ∧
     (wadjitRun [.addWatcher "a", .processQueued true true, .addWatcher "b"]
        initWadjit).watchers = [] ∧
     (wadjitRun [.addWatcher "a", .processQueued true true, .addWatcher "b"]
        initWadjit).queue =
       addedIds [.addWatcher "a", .processQueued true true, .addWatcher "b"]) ∧
    wadjitStep ⟨true, "a" :: ["b"], [], [], []⟩ (.processQueued true true) =
      ⟨true, ["b"], [] ++ ["a"], [] ++ ["a"], [] ++ ["a"]⟩ :=
  C5_gate_blocks_activation [.addWatcher "a", .processQueued true true, .addWatcher "b"]
    "a" ["b"] [] [] [] (by decide)

/-- A watcher map with no entry under a key is unchanged by filtering that
key out. -/
theorem watcherFilter_of_absent (k : String) (m : WatcherMap)
    (h : m.find? (fun p => p.1 == k) = none) :
    m.filter (fun q => q.1 != k) = m := by
  refine List.filter_eq_self.mpr ?_
  intro a ha
  have := List.find?_eq_none.mp h a ha
  simpa [bne] using this

/-- C6: RemoveWatcher fails with not-found and leaves the watcher map
unchanged when the id is absent; when present and the watcher closes cleanly
it deletes the watcher from the map, closes it, and removes its job, so a
fresh add followed by a remove returns the stored-watcher count to its
pre-add value. -/
theorem C6_removeWatcher_spec (k : String) (v : Nat) (m : WatcherMap)
    (jobs : List String) (closeErr : Nat → Option String) :
    (m.find? (fun p => p.1 == k) = none →
      removeWatcher closeErr k m jobs =
        ⟨some ("watcher with ID " ++ k ++ " not found"), m, jobs, none⟩) ∧
    (∀ p, m.find? (fun q => q.1 == k) = some p → closeErr p.2 = none →
      removeWatcher closeErr k m jobs =
        ⟨none, m.filter (fun q => q.1 != k), jobs.filter (fun j => j != k), some p.2⟩) ∧
    (m.find? (fun p => p.1 == k) = none → closeErr v = none →
      (removeWatcher closeErr k (watcherStore k v m) jobs).watchers.length = m.length) := by
  refine ⟨?_, ?_, ?_⟩
  · intro h
    simp [removeWatcher, watcherLoadAndDelete, h]
  · intro p hp hc
    simp [removeWatcher, watcherLoadAndDelete, hp, hc]
  · intro h hc
    have hf := watcherFilter_of_absent k m h
    have hfind : (watcherStore k v m).find? (fun p => p.1 == k) = some (k, v) := by
      simp [watcherStore, List.find?_cons]
    simp [removeWatcher, watcherLoadAndDelete, hfind, hc, watcherStore,
      List.filter_cons, hf]

/-- Witness for C6: removing a missing id errors and leaves the map intact;
removing a present id empties it; add-then-remove restores the count. -/
theorem C6_removeWatcher_spec_witness :
    (removeWatcher (fun _ => none) "b" [("a", 1)] ["a"] =
      ⟨some ("watcher with ID " ++ "b" ++ " not found"), [("a", 1)], ["a"], none⟩) ∧
    (removeWatcher (fun _ => none) "a" [("a", 1)] ["a"] =
      ⟨none, List.filter (fun q => q.1 != "a") [("a", 1)],
        List.filter (fun j => j != "a") ["a"], some 1⟩) ∧
    (removeWatcher (fun _ => none) "b" (watcherStore "b" 2 [("a", 1)])
        ["a"]).watchers.length = [("a", 1)].length :=
  ⟨(C6_removeWatcher_spec "b" 2 [("a", 1)] ["a"] (fun _ => none)).1 (by decide),
   (C6_removeWatcher_spec "a" 2 [("a", 1)] ["a"] (fun _ => none)).2.1 ("a", 1)
     (by decide) rfl,
   (C6_removeWatcher_spec "b" 2 [("a", 1)] ["a"] (fun _ => none)).2.2 (by decide) rfl⟩

/-- C7 evaluation: the first Watcher.Close succeeds and marks the done channel
closed; a second call panics with a close of a closed channel, because
part_002 closes w.doneChan without an idempotency guard. -/
theorem C7_double_close_panics :
    watcherClose [] ⟨false⟩ = GoOutcome.ok (none, ⟨true⟩) ∧
    watcherClose [] ⟨true⟩ = GoOutcome.panicked "close of closed channel" := by
  constructor <;> rfl
